import Mathlib

/-!
Shallow embedding of the host-metrics source (`src/sources/host_metrics.rs`)
and theorems checking the specification's claims about it.  The embedding
targets the Linux configuration of the source (the `cfg(target_os = "linux")`
arms), which is the most complete metric set.
-/

namespace HostMetrics

/-- A character-class item of a glob pattern: an inclusive character range.
A single class character `c` is represented as the range `(c, c)`. -/
abbrev ClassRange := Char × Char

/-- Modelled from the spec: reading a character class of a glob pattern
(the source delegates pattern compilation and matching to the external
`glob` crate, whose code is not part of this repository).  Reads class items
after the opening bracket up to the closing bracket, returning the ranges and
the remaining pattern text.  A `-` directly before the closing bracket is a
literal character. -/
def readRanges : List Char → Option (List ClassRange × List Char)
  | [] => none
  | ']' :: rest => some ([], rest)
  | a :: '-' :: ']' :: rest => some ([(a, a), ('-', '-')], rest)
  | a :: '-' :: b :: rest =>
    (readRanges rest).map (fun pr => ((a, b) :: pr.1, pr.2))
  | a :: rest => (readRanges rest).map (fun pr => ((a, a) :: pr.1, pr.2))

/-- Modelled from the spec: a character class optionally starts with `!`,
negating it. -/
def readClass (ps : List Char) : Option (Bool × List ClassRange × List Char) :=
  match ps with
  | '!' :: rest => (readRanges rest).map (fun pr => (true, pr.1, pr.2))
  | rest => (readRanges rest).map (fun pr => (false, pr.1, pr.2))

/-- Modelled from the spec: the Pattern Matcher component.  `*` matches any
run of characters, `?` matches exactly one character, `[...]` matches one
character from a class (`[!...]` one character not in the class); the whole
value must match.  The fuel argument only bounds the recursion depth; every
recursive call strictly decreases the combined length of pattern and value,
so `globMatch` below always supplies enough fuel for full evaluation. -/
def globMatchFuel : Nat → List Char → List Char → Bool
  | 0, _, _ => false
  | fuel + 1, pat, s =>
    match pat, s with
    | [], [] => true
    | [], _ :: _ => false
    | '*' :: ps, s =>
      globMatchFuel fuel ps s ||
        (match s with
         | [] => false
         | _ :: s2 => globMatchFuel fuel ('*' :: ps) s2)
    | '?' :: ps, _ :: s2 => globMatchFuel fuel ps s2
    | '?' :: _, [] => false
    | '[' :: ps, c :: s2 =>
      (match readClass ps with
       | some (neg, ranges, rest) =>
         (ranges.any (fun r => r.1 ≤ c && c ≤ r.2) != neg) && globMatchFuel fuel rest s2
       | none => false)
    | '[' :: _, [] => false
    | p :: ps, c :: s2 => p == c && globMatchFuel fuel ps s2
    | _ :: _, [] => false

/-- Match a whole glob pattern against a whole value. -/
def globMatch (pat s : List Char) : Bool :=
  globMatchFuel (pat.length + s.length + 1) pat s

/-- Modelled from the spec: validity of a glob pattern (every character class
is closed); pattern construction fails at configuration-load time otherwise. -/
def patternOkFuel : Nat → List Char → Bool
  | 0, _ => false
  | _ + 1, [] => true
  | fuel + 1, '[' :: ps =>
    (match readClass ps with
     | some pr => patternOkFuel fuel pr.2.2
     | none => false)
  | fuel + 1, _ :: ps => patternOkFuel fuel ps

/-- Wrapper around a compiled glob pattern (source: `PatternWrapper(Pattern)`).
The compiled pattern is modelled by its textual form, matched by `globMatch`. -/
structure PatternWrapper where
  pattern : String
  deriving DecidableEq, Repr

/-- Source: `PatternWrapper::new`, which fails on invalid pattern syntax. -/
def PatternWrapper.new (s : String) : Option PatternWrapper :=
  if patternOkFuel (s.data.length + 1) s.data then some ⟨s⟩ else none

/-- Modelled from the spec: a path-shaped value, represented by its rendered
(UTF-8) string form. -/
structure Path where
  render : String
  deriving DecidableEq, Repr

/-- Source: `PatternWrapper::matches_str`, `Pattern::matches`. -/
def PatternWrapper.matches_str (p : PatternWrapper) (s : String) : Bool :=
  globMatch p.pattern.data s.data

/-- Source: `PatternWrapper::matches_path`; the `glob` crate renders the path
to its string form and matches that. -/
def PatternWrapper.matches_path (p : PatternWrapper) (q : Path) : Bool :=
  globMatch p.pattern.data q.render.data

/-- Source: `struct FilterList`. -/
structure FilterList where
  includes : Option (List PatternWrapper)
  excludes : Option (List PatternWrapper)
  deriving DecidableEq, Repr

/-- Source: `FilterList::default()` (both fields `None`). -/
def FilterList.default : FilterList := ⟨none, none⟩

/-- Source: `FilterList::contains`, generic over the matcher for `T`. -/
def FilterList.contains {T : Type} (fl : FilterList) (value : Option T)
    (mtch : PatternWrapper → T → Bool) : Bool :=
  (match fl.includes, value with
   -- No includes list includes everything
   | none, _ => true
   -- Includes list matched against empty value returns false
   | some _, none => false
   -- Otherwise find the given value
   | some includes, some v => includes.any (fun pattern => mtch pattern v)) &&
  (match fl.excludes, value with
   -- No excludes, list excludes nothing
   | none, _ => true
   -- No value, never excluded
   | some _, none => true
   -- Otherwise find the given value
   | some excludes, some v => !excludes.any (fun pattern => mtch pattern v))

/-- Source: `FilterList::contains_str`. -/
def FilterList.contains_str (fl : FilterList) (value : Option String) : Bool :=
  fl.contains value (fun pattern s => pattern.matches_str s)

/-- Source: `FilterList::contains_path`. -/
def FilterList.contains_path (fl : FilterList) (value : Option Path) : Bool :=
  fl.contains value (fun pattern p => pattern.matches_path p)

/-- Spec-side definition (the spec's words for the include check): absent
includes pass; present includes with an absent value fail; otherwise pass iff
at least one include pattern matches the value. -/
def includeCheckSpec {T : Type} (includes : Option (List PatternWrapper))
    (value : Option T) (mtch : PatternWrapper → T → Bool) : Bool :=
  match includes, value with
  | none, _ => true
  | some _, none => false
  | some pats, some v => pats.any (fun pattern => mtch pattern v)

/-- Spec-side definition (the spec's words for the exclude check): absent
excludes pass; an absent value is never excluded; otherwise pass iff no
exclude pattern matches the value. -/
def excludeCheckSpec {T : Type} (excludes : Option (List PatternWrapper))
    (value : Option T) (mtch : PatternWrapper → T → Bool) : Bool :=
  match excludes, value with
  | none, _ => true
  | some _, none => true
  | some pats, some v => !pats.any (fun pattern => mtch pattern v)

-- Sanity examples from the spec's testable properties (section 8).
example :
    let fl : FilterList := ⟨some [⟨"sda"⟩, ⟨"dm-*"⟩], none⟩
    fl.contains_str (some "sda") = true ∧ fl.contains_str (some "sda1") = false ∧
      fl.contains_str (some "dm-5") = true ∧ fl.contains_str none = false := by
  decide

example :
    let fl : FilterList := ⟨none, some [⟨"sda"⟩, ⟨"dm-*"⟩]⟩
    fl.contains_str (some "sda") = false ∧ fl.contains_str (some "sda1") = true ∧
      fl.contains_str (some "dm-5") = false ∧ fl.contains_str none = true := by
  decide

example :
    let fl : FilterList := ⟨some [⟨"sda"⟩, ⟨"dm-*"⟩], some [⟨"dm-5"⟩]⟩
    fl.contains_str (some "dm-1") = true ∧ fl.contains_str (some "dm-5") = false ∧
      fl.contains_str (some "sda") = true := by
  decide

example : FilterList.default.contains_str (some "anything") = true := by decide

example : PatternWrapper.new "a[bc" = none := by decide

example : (PatternWrapper.new "dm-[0-5]").isSome = true := by decide

example : PatternWrapper.matches_str ⟨"dm-[0-5]"⟩ "dm-3" = true := by decide

example : PatternWrapper.matches_str ⟨"dm-[!0-5]"⟩ "dm-3" = false := by decide

/-- Claim C1: `FilterList.contains` returns true iff both the include check
and the exclude check of the spec pass; in particular a present includes list
with an absent value yields `false`, and a present excludes list with an
absent value passes the exclude check. -/
theorem claim_C1_contains_include_exclude :
    (∀ (T : Type) (fl : FilterList) (value : Option T)
        (mtch : PatternWrapper → T → Bool),
      fl.contains value mtch =
        (includeCheckSpec fl.includes value mtch &&
          excludeCheckSpec fl.excludes value mtch)) ∧
      (∀ (T : Type) (pats : List PatternWrapper)
          (excl : Option (List PatternWrapper))
          (mtch : PatternWrapper → T → Bool),
        FilterList.contains ⟨some pats, excl⟩ (none : Option T) mtch = false) ∧
      (∀ (T : Type) (pats : List PatternWrapper)
          (mtch : PatternWrapper → T → Bool),
        excludeCheckSpec (some pats) (none : Option T) mtch = true) := by
  refine ⟨fun T fl value mtch => ?_, fun T pats excl mtch => ?_,
    fun T pats mtch => ?_⟩
  · cases fl with
    | mk includes excludes =>
      cases includes <;> cases excludes <;> cases value <;>
        simp [FilterList.contains, includeCheckSpec, excludeCheckSpec]
  · cases excl <;> rfl
  · rfl

/-- Claim C2: matching a value as a string and matching it as a path whose
rendered string form is that value agree, both at the single-pattern level
and through a whole `FilterList`. -/
theorem claim_C2_str_path_agree :
    (∀ (p : PatternWrapper) (s : String),
      p.matches_str s = p.matches_path ⟨s⟩) ∧
      (∀ (fl : FilterList) (s : String),
        fl.contains_str (some s) = fl.contains_path (some ⟨s⟩)) ∧
      (∀ fl : FilterList, fl.contains_str none = fl.contains_path none) := by
  refine ⟨fun p s => rfl, fun fl s => ?_, fun fl => ?_⟩
  · cases fl with
    | mk includes excludes =>
      cases includes <;> cases excludes <;>
        simp [FilterList.contains_str, FilterList.contains_path,
          FilterList.contains, PatternWrapper.matches_str,
          PatternWrapper.matches_path]
  · cases fl with
    | mk includes excludes =>
      cases includes <;> cases excludes <;> rfl

/-- Claim C10: a present-but-empty includes list makes `contains` false for
every candidate value (present or absent, whatever the excludes field), and a
present-but-empty excludes list excludes nothing: `contains` behaves exactly
as with no excludes list. -/
theorem claim_C10_empty_lists :
    (∀ (T : Type) (excl : Option (List PatternWrapper)) (value : Option T)
        (mtch : PatternWrapper → T → Bool),
      FilterList.contains ⟨some [], excl⟩ value mtch = false) ∧
      (∀ (T : Type) (inc : Option (List PatternWrapper)) (value : Option T)
          (mtch : PatternWrapper → T → Bool),
        FilterList.contains ⟨inc, some []⟩ value mtch =
          FilterList.contains ⟨inc, none⟩ value mtch) := by
  refine ⟨fun T excl value mtch => ?_, fun T inc value mtch => ?_⟩
  · cases excl <;> cases value <;> simp [FilterList.contains]
  · cases inc <;> cases value <;> simp [FilterList.contains]

/-- Timestamps of metrics, modelled as abstract instants. -/
abbrev Time := Nat

/-- A collector invocation's clock: the value of the i-th `Utc::now()` call
made during that invocation. -/
abbrev Clock := Nat → Time

/-- Numeric metric values (the claims never depend on float arithmetic). -/
abbrev Val := Int

/-- Modelled from the spec: the metric kind of the data model (the source's
`MetricValue::Counter` / `MetricValue::Gauge`; `crate::event::metric` is not
part of this repository's sources). -/
inductive MetricKind
  | counter
  | gauge
  deriving DecidableEq, Repr

/-- Metric tags: a mapping with unique keys, as an association list. -/
abbrev Tags := List (String × String)

/-- Modelled from the spec: map insertion for tags (`Metric::insert_tag`
inserts into a `BTreeMap`, replacing any existing entry for the key). -/
def insertTag : Tags → String → String → Tags
  | [], k, v => [(k, v)]
  | (k2, v2) :: rest, k, v =>
    if k2 == k then (k, v) :: rest else (k2, v2) :: insertTag rest k v

/-- Modelled from the spec: the Metric record of the data model
(`crate::event::metric::Metric` is not part of this repository's sources):
name, kind, value, tags, optional namespace and timestamp. -/
structure Metric where
  name : String
  kind : MetricKind
  value : Val
  tags : Tags
  ns : Option String
  timestamp : Time
  deriving DecidableEq, Repr

/-- Source: `Metric::insert_tag` (via the spec's tag-mapping model). -/
def Metric.insert_tag (m : Metric) (k v : String) : Metric :=
  { m with tags := insertTag m.tags k v }

/-- Source: `struct Namespace(Option<String>)`; the field is called `val`
here because `namespace` is reserved in Lean. -/
structure Namespace where
  val : Option String
  deriving DecidableEq, Repr

/-- Source: `impl Default for Namespace`. -/
def Namespace.default : Namespace := ⟨some "host"⟩

/-- Source: `enum Collector`. -/
inductive Collector
  | Cpu
  | Disk
  | Filesystem
  | Load
  | Host
  | Memory
  | Network
  deriving DecidableEq, Repr

/-- Source: `struct DiskConfig`. -/
structure DiskConfig where
  devices : FilterList
  deriving DecidableEq, Repr

/-- Source: `struct FilesystemConfig`. -/
structure FilesystemConfig where
  devices : FilterList
  filesystems : FilterList
  mountpoints : FilterList
  deriving DecidableEq, Repr

/-- Source: `struct NetworkConfig`. -/
structure NetworkConfig where
  devices : FilterList
  deriving DecidableEq, Repr

/-- Source: `default_scrape_interval`. -/
def default_scrape_interval : Nat := 15

/-- Source: `struct HostMetricsConfig`; the namespace field is called `ns`
here because `namespace` is reserved in Lean. -/
structure HostMetricsConfig where
  scrape_interval_secs : Nat
  collectors : Option (List Collector)
  ns : Namespace
  disk : DiskConfig
  filesystem : FilesystemConfig
  network : NetworkConfig
  deriving DecidableEq, Repr

/-- Source: the namespace normalization in `HostMetricsConfig::build`
(`config.namespace.0 = config.namespace.0.filter(|namespace|
!namespace.is_empty())`). -/
def HostMetricsConfig.build (cfg : HostMetricsConfig) : HostMetricsConfig :=
  { cfg with ns := ⟨cfg.ns.val.filter (fun s => !s.isEmpty)⟩ }

/-- One CPU-time sample (the Linux field set, including `nice`). -/
structure CpuTimes where
  idle : Val
  nice : Val
  system : Val
  user : Val
  deriving DecidableEq, Repr

/-- One memory sample (the Linux field set). -/
structure MemoryStats where
  total : Val
  free : Val
  available : Val
  active : Val
  buffers : Val
  cached : Val
  shared : Val
  used : Val
  deriving DecidableEq, Repr

/-- One swap sample; `sin` and `sout` are optional platform data. -/
structure SwapStats where
  free : Val
  total : Val
  used : Val
  sin : Option Val
  sout : Option Val
  deriving DecidableEq, Repr

/-- One load-average sample. -/
structure LoadAvg where
  load1 : Val
  load5 : Val
  load15 : Val
  deriving DecidableEq, Repr

/-- One network I/O-counter sample (the Linux field set). -/
structure NetCounter where
  interface : String
  bytes_recv : Val
  errors_recv : Val
  packets_recv : Val
  bytes_sent : Val
  errors_sent : Val
  drop_sent : Val
  packets_sent : Val
  deriving DecidableEq, Repr

/-- One disk I/O-counter sample. -/
structure DiskCounter where
  device_name : Path
  read_bytes : Val
  read_count : Val
  write_bytes : Val
  write_count : Val
  deriving DecidableEq, Repr

/-- One partition-usage sample; `ratio_used` models `usage.ratio()`. -/
structure Usage where
  free : Val
  total : Val
  used : Val
  ratio_used : Val
  deriving DecidableEq, Repr

/-- Decidable equality of fallible results, needed to evaluate membership of
concrete metrics in concrete collector outputs. -/
def exceptDecEq {E A : Type} [DecidableEq E] [DecidableEq A] :
    (a b : Except E A) → Decidable (a = b)
  | .ok a, .ok b =>
    if h : a = b then isTrue (congrArg Except.ok h)
    else isFalse (fun hh => h (Except.ok.inj hh))
  | .error a, .error b =>
    if h : a = b then isTrue (congrArg Except.error h)
    else isFalse (fun hh => h (Except.error.inj hh))
  | .ok _, .error _ => isFalse (fun hh => Except.noConfusion hh)
  | .error _, .ok _ => isFalse (fun hh => Except.noConfusion hh)

instance {E A : Type} [DecidableEq E] [DecidableEq A] :
    DecidableEq (Except E A) :=
  exceptDecEq

/-- One partition sample; `usage` carries the result of the per-partition
`heim::disk::usage(mount_point)` query. -/
structure Partition where
  device : Option Path
  file_system : String
  mount_point : Path
  usage : Except Unit Usage
  deriving DecidableEq, Repr

/-- Source: `filter_result`: a malformed sample is logged at rate-limited
severity and dropped. -/
def filter_result {T : Type} : Except Unit T → Option T
  | .ok t => some t
  | .error _ => none

/-- Source: `HostMetricsConfig::counter`. -/
def HostMetricsConfig.counter (cfg : HostMetricsConfig) (name : String)
    (timestamp : Time) (value : Val) (tags : Tags) : Metric :=
  { name := name, kind := .counter, value := value, tags := tags,
    ns := cfg.ns.val, timestamp := timestamp }

/-- Source: `HostMetricsConfig::gauge`. -/
def HostMetricsConfig.gauge (cfg : HostMetricsConfig) (name : String)
    (timestamp : Time) (value : Val) (tags : Tags) : Metric :=
  { name := name, kind := .gauge, value := value, tags := tags,
    ns := cfg.ns.val, timestamp := timestamp }

/-- Source: `HostMetricsConfig::cpu_metrics`.  The enumeration index is both
the `cpu` tag of the sample and the index of the `Utc::now()` reading taken
inside the per-sample closure. -/
def HostMetricsConfig.cpu_metrics (cfg : HostMetricsConfig) (clock : Clock)
    (times : Except Unit (List (Except Unit CpuTimes))) : List Metric :=
  match times with
  | .error _ => []
  | .ok ts =>
    (((ts.filterMap filter_result).enum).map (fun p =>
      let index := p.1
      let t := p.2
      let timestamp := clock index
      let name := "cpu_seconds_total"
      [cfg.counter name timestamp t.idle [("mode", "idle"), ("cpu", toString index)],
       cfg.counter name timestamp t.nice [("mode", "nice"), ("cpu", toString index)],
       cfg.counter name timestamp t.system [("mode", "system"), ("cpu", toString index)],
       cfg.counter name timestamp t.user [("mode", "user"), ("cpu", toString index)]])).flatten

/-- Source: `HostMetricsConfig::memory_metrics` (Linux field set). -/
def HostMetricsConfig.memory_metrics (cfg : HostMetricsConfig) (clock : Clock)
    (memory : Except Unit MemoryStats) : List Metric :=
  match memory with
  | .error _ => []
  | .ok m =>
    let timestamp := clock 0
    [cfg.gauge "memory_total_bytes" timestamp m.total [],
     cfg.gauge "memory_free_bytes" timestamp m.free [],
     cfg.gauge "memory_available_bytes" timestamp m.available [],
     cfg.gauge "memory_active_bytes" timestamp m.active [],
     cfg.gauge "memory_buffers_bytes" timestamp m.buffers [],
     cfg.gauge "memory_cached_bytes" timestamp m.cached [],
     cfg.gauge "memory_shared_bytes" timestamp m.shared [],
     cfg.gauge "memory_used_bytes" timestamp m.used []]

/-- Source: `HostMetricsConfig::swap_metrics` (non-Windows field set). -/
def HostMetricsConfig.swap_metrics (cfg : HostMetricsConfig) (clock : Clock)
    (swap : Except Unit SwapStats) : List Metric :=
  match swap with
  | .error _ => []
  | .ok s =>
    let timestamp := clock 0
    [cfg.gauge "memory_swap_free_bytes" timestamp s.free [],
     cfg.gauge "memory_swap_total_bytes" timestamp s.total [],
     cfg.gauge "memory_swap_used_bytes" timestamp s.used [],
     cfg.counter "memory_swapped_in_bytes_total" timestamp (s.sin.getD 0) [],
     cfg.counter "memory_swapped_out_bytes_total" timestamp (s.sout.getD 0) []]

/-- Source: `HostMetricsConfig::loadavg_metrics` (Unix branch). -/
def HostMetricsConfig.loadavg_metrics (cfg : HostMetricsConfig) (clock : Clock)
    (loadavg : Except Unit LoadAvg) : List Metric :=
  match loadavg with
  | .error _ => []
  | .ok l =>
    let timestamp := clock 0
    [cfg.gauge "load1" timestamp l.load1 [],
     cfg.gauge "load5" timestamp l.load5 [],
     cfg.gauge "load15" timestamp l.load15 []]

/-- Source: `HostMetricsConfig::host_metrics`.  Each successful sub-query
(uptime, then boot time) takes its own `Utc::now()` reading. -/
def HostMetricsConfig.host_metrics (cfg : HostMetricsConfig) (clock : Clock)
    (uptime : Except Unit Val) (boot_time : Except Unit Val) : List Metric :=
  match uptime, boot_time with
  | .ok u, .ok b =>
    [cfg.gauge "uptime" (clock 0) u [], cfg.gauge "boot_time" (clock 1) b []]
  | .ok u, .error _ => [cfg.gauge "uptime" (clock 0) u []]
  | .error _, .ok b => [cfg.gauge "boot_time" (clock 0) b []]
  | .error _, .error _ => []

/-- Source: `HostMetricsConfig::network_metrics`.  The enumeration index
models the successive `Utc::now()` readings, one per counter that passes the
device filter. -/
def HostMetricsConfig.network_metrics (cfg : HostMetricsConfig) (clock : Clock)
    (counters : Except Unit (List (Except Unit NetCounter))) : List Metric :=
  match counters with
  | .error _ => []
  | .ok cs =>
    let passing := (cs.filterMap filter_result).filter
      (fun c => cfg.network.devices.contains_str (some c.interface))
    ((passing.enum).map (fun p =>
      let timestamp := clock p.1
      let c := p.2
      let interface := c.interface
      [cfg.counter "network_receive_bytes_total" timestamp c.bytes_recv [("device", interface)],
       cfg.counter "network_receive_errs_total" timestamp c.errors_recv [("device", interface)],
       cfg.counter "network_receive_packets_total" timestamp c.packets_recv [("device", interface)],
       cfg.counter "network_transmit_bytes_total" timestamp c.bytes_sent [("device", interface)],
       cfg.counter "network_transmit_errs_total" timestamp c.errors_sent [("device", interface)],
       cfg.counter "network_transmit_packets_drop_total" timestamp c.drop_sent [("device", interface)],
       cfg.counter "network_transmit_packets_total" timestamp c.packets_sent [("device", interface)]])).flatten

/-- Source: `HostMetricsConfig::filesystem_metrics`.  Partitions are filtered
on mountpoint, then device, then filesystem type; the per-partition usage
query may fail, dropping that partition alone; the enumeration index models
the successive `Utc::now()` readings. -/
def HostMetricsConfig.filesystem_metrics (cfg : HostMetricsConfig) (clock : Clock)
    (partitions : Except Unit (List (Except Unit Partition))) : List Metric :=
  match partitions with
  | .error _ => []
  | .ok parts =>
    let passing := (((parts.filterMap filter_result).filter
      (fun p => cfg.filesystem.mountpoints.contains_path (some p.mount_point))).filter
      (fun p => cfg.filesystem.devices.contains_path p.device)).filter
      (fun p => cfg.filesystem.filesystems.contains_str (some p.file_system))
    let withUsage := passing.filterMap (fun p =>
      match p.usage with
      | .ok u => some (p, u)
      | .error _ => none)
    ((withUsage.enum).map (fun q =>
      let timestamp := clock q.1
      let p := q.2.1
      let u := q.2.2
      let tags :=
        match p.device with
        | some d =>
          [("filesystem", p.file_system), ("mountpoint", p.mount_point.render),
           ("device", d.render)]
        | none => [("filesystem", p.file_system), ("mountpoint", p.mount_point.render)]
      [cfg.gauge "filesystem_free_bytes" timestamp u.free tags,
       cfg.gauge "filesystem_total_bytes" timestamp u.total tags,
       cfg.gauge "filesystem_used_bytes" timestamp u.used tags,
       cfg.gauge "filesystem_used_ratio" timestamp u.ratio_used tags])).flatten

/-- Source: `HostMetricsConfig::disk_metrics`.  The enumeration index models
the successive `Utc::now()` readings, one per counter that passes the device
filter. -/
def HostMetricsConfig.disk_metrics (cfg : HostMetricsConfig) (clock : Clock)
    (counters : Except Unit (List (Except Unit DiskCounter))) : List Metric :=
  match counters with
  | .error _ => []
  | .ok cs =>
    let passing := (cs.filterMap filter_result).filter
      (fun c => cfg.disk.devices.contains_path (some c.device_name))
    ((passing.enum).map (fun p =>
      let timestamp := clock p.1
      let c := p.2
      let tags := [("device", c.device_name.render)]
      [cfg.counter "disk_read_bytes_total" timestamp c.read_bytes tags,
       cfg.counter "disk_reads_completed_total" timestamp c.read_count tags,
       cfg.counter "disk_written_bytes_total" timestamp c.write_bytes tags,
       cfg.counter "disk_writes_completed_total" timestamp c.write_count tags])).flatten

/-- The metrics the per-sample closure of `cpu_metrics` builds for the CPU
sample at `index`: four counters, all stamped with the closure's one
timestamp. -/
def cpuEntryMetrics (cfg : HostMetricsConfig) (timestamp : Time) (index : Nat)
    (t : CpuTimes) : List Metric :=
  [cfg.counter "cpu_seconds_total" timestamp t.idle
    [("mode", "idle"), ("cpu", toString index)],
   cfg.counter "cpu_seconds_total" timestamp t.nice
    [("mode", "nice"), ("cpu", toString index)],
   cfg.counter "cpu_seconds_total" timestamp t.system
    [("mode", "system"), ("cpu", toString index)],
   cfg.counter "cpu_seconds_total" timestamp t.user
    [("mode", "user"), ("cpu", toString index)]]

/-- The metrics the per-counter closure of `disk_metrics` builds for one disk
counter: four counters, all stamped with the closure's one timestamp. -/
def diskEntryMetrics (cfg : HostMetricsConfig) (timestamp : Time)
    (c : DiskCounter) : List Metric :=
  [cfg.counter "disk_read_bytes_total" timestamp c.read_bytes
    [("device", c.device_name.render)],
   cfg.counter "disk_reads_completed_total" timestamp c.read_count
    [("device", c.device_name.render)],
   cfg.counter "disk_written_bytes_total" timestamp c.write_bytes
    [("device", c.device_name.render)],
   cfg.counter "disk_writes_completed_total" timestamp c.write_count
    [("device", c.device_name.render)]]

/-- The metrics the per-counter closure of `network_metrics` builds for one
interface counter: seven counters, all stamped with the closure's one
timestamp. -/
def networkEntryMetrics (cfg : HostMetricsConfig) (timestamp : Time)
    (c : NetCounter) : List Metric :=
  [cfg.counter "network_receive_bytes_total" timestamp c.bytes_recv
    [("device", c.interface)],
   cfg.counter "network_receive_errs_total" timestamp c.errors_recv
    [("device", c.interface)],
   cfg.counter "network_receive_packets_total" timestamp c.packets_recv
    [("device", c.interface)],
   cfg.counter "network_transmit_bytes_total" timestamp c.bytes_sent
    [("device", c.interface)],
   cfg.counter "network_transmit_errs_total" timestamp c.errors_sent
    [("device", c.interface)],
   cfg.counter "network_transmit_packets_drop_total" timestamp c.drop_sent
    [("device", c.interface)],
   cfg.counter "network_transmit_packets_total" timestamp c.packets_sent
    [("device", c.interface)]]

/-- The metrics the per-partition closure of `filesystem_metrics` builds for
one partition and its usage: four gauges, all stamped with the closure's one
timestamp. -/
def filesystemEntryMetrics (cfg : HostMetricsConfig) (timestamp : Time)
    (p : Partition) (u : Usage) : List Metric :=
  let tags :=
    match p.device with
    | some dv =>
      [("filesystem", p.file_system), ("mountpoint", p.mount_point.render),
       ("device", dv.render)]
    | none => [("filesystem", p.file_system), ("mountpoint", p.mount_point.render)]
  [cfg.gauge "filesystem_free_bytes" timestamp u.free tags,
   cfg.gauge "filesystem_total_bytes" timestamp u.total tags,
   cfg.gauge "filesystem_used_bytes" timestamp u.used tags,
   cfg.gauge "filesystem_used_ratio" timestamp u.ratio_used tags]

/-- Source: `HostMetricsConfig::has_collector`. -/
def HostMetricsConfig.has_collector (cfg : HostMetricsConfig)
    (collector : Collector) : Bool :=
  match cfg.collectors with
  | none => true
  | some collectors => collectors.any (fun c => c == collector)

/-- Source: `add_collector`. -/
def add_collector (collector : String) (metrics : List Metric) : List Metric :=
  metrics.map (fun m => m.insert_tag "collector" collector)

/-- The external inputs of one capture cycle: the hostname lookup, each
category's stat-provider result and the clock of each collector invocation
(its successive `Utc::now()` readings). -/
structure ProviderData where
  hostname : Except Unit String
  cpuClock : Clock
  diskClock : Clock
  fsClock : Clock
  loadClock : Clock
  hostClock : Clock
  memClock : Clock
  swapClock : Clock
  netClock : Clock
  cpu : Except Unit (List (Except Unit CpuTimes))
  disk : Except Unit (List (Except Unit DiskCounter))
  partitions : Except Unit (List (Except Unit Partition))
  load : Except Unit LoadAvg
  uptime : Except Unit Val
  boot_time : Except Unit Val
  memory : Except Unit MemoryStats
  swap : Except Unit SwapStats
  network : Except Unit (List (Except Unit NetCounter))

/-- Source: the `let mut metrics = ...; if self.has_collector(...) { ... }`
body of `HostMetricsConfig::capture_metrics`, before hostname tagging. -/
def HostMetricsConfig.captureCore (cfg : HostMetricsConfig)
    (d : ProviderData) : List Metric :=
  (if cfg.has_collector .Cpu then
      add_collector "cpu" (cfg.cpu_metrics d.cpuClock d.cpu)
    else []) ++
  (if cfg.has_collector .Disk then
      add_collector "disk" (cfg.disk_metrics d.diskClock d.disk)
    else []) ++
  (if cfg.has_collector .Filesystem then
      add_collector "filesystem" (cfg.filesystem_metrics d.fsClock d.partitions)
    else []) ++
  (if cfg.has_collector .Load then
      add_collector "load" (cfg.loadavg_metrics d.loadClock d.load)
    else []) ++
  (if cfg.has_collector .Host then
      add_collector "host" (cfg.host_metrics d.hostClock d.uptime d.boot_time)
    else []) ++
  (if cfg.has_collector .Memory then
      add_collector "memory" (cfg.memory_metrics d.memClock d.memory) ++
        add_collector "memory" (cfg.swap_metrics d.swapClock d.swap)
    else []) ++
  (if cfg.has_collector .Network then
      add_collector "network" (cfg.network_metrics d.netClock d.network)
    else [])

/-- Source: `HostMetricsConfig::capture_metrics`: run the enabled collectors,
tag each result with its collector name, then tag everything with the
hostname when resolution succeeded. -/
def HostMetricsConfig.capture_metrics (cfg : HostMetricsConfig)
    (d : ProviderData) : List Metric :=
  let metrics := cfg.captureCore d
  match d.hostname with
  | .ok hostname => metrics.map (fun m => m.insert_tag "host" hostname)
  | .error _ => metrics

/-- The `collector` tag value the orchestrator attaches for each category. -/
def collectorTagName : Collector → String
  | .Cpu => "cpu"
  | .Disk => "disk"
  | .Filesystem => "filesystem"
  | .Load => "load"
  | .Host => "host"
  | .Memory => "memory"
  | .Network => "network"

/-- The seven categories, in the order `capture_metrics` visits them. -/
def allCollectors : List Collector :=
  [.Cpu, .Disk, .Filesystem, .Load, .Host, .Memory, .Network]

/-- The metrics one category contributes to a capture cycle, before
orchestrator tagging (the Memory category runs both `memory_metrics` and
`swap_metrics`). -/
def categoryOutput (cfg : HostMetricsConfig) (d : ProviderData) :
    Collector → List Metric
  | .Cpu => cfg.cpu_metrics d.cpuClock d.cpu
  | .Disk => cfg.disk_metrics d.diskClock d.disk
  | .Filesystem => cfg.filesystem_metrics d.fsClock d.partitions
  | .Load => cfg.loadavg_metrics d.loadClock d.load
  | .Host => cfg.host_metrics d.hostClock d.uptime d.boot_time
  | .Memory =>
    cfg.memory_metrics d.memClock d.memory ++ cfg.swap_metrics d.swapClock d.swap
  | .Network => cfg.network_metrics d.netClock d.network

/-- The fixed catalog of metric names and kinds the collectors can emit. -/
def metricCatalog : List (String × MetricKind) :=
  [("cpu_seconds_total", .counter),
   ("memory_total_bytes", .gauge),
   ("memory_free_bytes", .gauge),
   ("memory_available_bytes", .gauge),
   ("memory_active_bytes", .gauge),
   ("memory_buffers_bytes", .gauge),
   ("memory_cached_bytes", .gauge),
   ("memory_shared_bytes", .gauge),
   ("memory_used_bytes", .gauge),
   ("memory_swap_free_bytes", .gauge),
   ("memory_swap_total_bytes", .gauge),
   ("memory_swap_used_bytes", .gauge),
   ("memory_swapped_in_bytes_total", .counter),
   ("memory_swapped_out_bytes_total", .counter),
   ("load1", .gauge),
   ("load5", .gauge),
   ("load15", .gauge),
   ("uptime", .gauge),
   ("boot_time", .gauge),
   ("network_receive_bytes_total", .counter),
   ("network_receive_errs_total", .counter),
   ("network_receive_packets_total", .counter),
   ("network_transmit_bytes_total", .counter),
   ("network_transmit_errs_total", .counter),
   ("network_transmit_packets_drop_total", .counter),
   ("network_transmit_packets_total", .counter),
   ("filesystem_free_bytes", .gauge),
   ("filesystem_total_bytes", .gauge),
   ("filesystem_used_bytes", .gauge),
   ("filesystem_used_ratio", .gauge),
   ("disk_read_bytes_total", .counter),
   ("disk_reads_completed_total", .counter),
   ("disk_written_bytes_total", .counter),
   ("disk_writes_completed_total", .counter)]

theorem insert_tag_ns (m : Metric) (k v : String) :
    (m.insert_tag k v).ns = m.ns := rfl

theorem insert_tag_name (m : Metric) (k v : String) :
    (m.insert_tag k v).name = m.name := rfl

theorem insert_tag_kind (m : Metric) (k v : String) :
    (m.insert_tag k v).kind = m.kind := rfl

theorem insert_tag_timestamp (m : Metric) (k v : String) :
    (m.insert_tag k v).timestamp = m.timestamp := rfl

/-- Looking up the key just inserted finds the inserted value. -/
theorem lookup_insertTag_self (t : Tags) (k v : String) :
    List.lookup k (insertTag t k v) = some v := by
  induction t with
  | nil => simp [insertTag, List.lookup]
  | cons p rest ih =>
    obtain ⟨k2, v2⟩ := p
    by_cases h : k2 = k
    · subst h
      simp [insertTag, List.lookup]
    · have h4 : (k2 == k) = false := by simpa [beq_iff_eq] using h
      have h5 : (k == k2) = false := by
        simpa [beq_iff_eq] using fun hh => h hh.symm
      simp [insertTag, h4, h5, List.lookup, ih]

/-- Inserting one key leaves lookups of other keys unchanged. -/
theorem lookup_insertTag_ne (t : Tags) (k k2 v : String) (h : k2 ≠ k) :
    List.lookup k2 (insertTag t k v) = List.lookup k2 t := by
  have h0 : (k2 == k) = false := by simpa [beq_iff_eq] using h
  induction t with
  | nil => simp [insertTag, List.lookup, h0]
  | cons p rest ih =>
    obtain ⟨k3, v3⟩ := p
    by_cases h3 : k3 = k
    · subst h3
      simp [insertTag, List.lookup, h0]
    · have h4 : (k3 == k) = false := by simpa [beq_iff_eq] using h3
      simp [insertTag, h4, List.lookup, ih]

/-- Facts every collector-produced metric satisfies before orchestrator
tagging: its namespace comes from the configuration, its name/kind pair is in
the fixed catalog, and it carries neither a `collector` nor a `host` tag. -/
def CollectorFacts (cfg : HostMetricsConfig) (m : Metric) : Prop :=
  m.ns = cfg.ns.val ∧ (m.name, m.kind) ∈ metricCatalog ∧
    List.lookup "collector" m.tags = none ∧ List.lookup "host" m.tags = none

theorem cpu_metrics_facts (cfg : HostMetricsConfig) (clock : Clock)
    (r : Except Unit (List (Except Unit CpuTimes))) (m : Metric)
    (h : m ∈ cfg.cpu_metrics clock r) : CollectorFacts cfg m := by
  cases r with
  | error e => simp [HostMetricsConfig.cpu_metrics] at h
  | ok ts =>
    simp only [HostMetricsConfig.cpu_metrics, List.mem_flatten, List.mem_map] at h
    obtain ⟨l, ⟨p, hp, rfl⟩, hm⟩ := h
    simp only [List.mem_cons, List.not_mem_nil, or_false] at hm
    rcases hm with rfl | rfl | rfl | rfl <;>
      simp [CollectorFacts, HostMetricsConfig.counter, metricCatalog, List.lookup]

theorem memory_metrics_facts (cfg : HostMetricsConfig) (clock : Clock)
    (r : Except Unit MemoryStats) (m : Metric)
    (h : m ∈ cfg.memory_metrics clock r) : CollectorFacts cfg m := by
  cases r with
  | error e => simp [HostMetricsConfig.memory_metrics] at h
  | ok s =>
    simp only [HostMetricsConfig.memory_metrics, List.mem_cons,
      List.not_mem_nil, or_false] at h
    rcases h with rfl | rfl | rfl | rfl | rfl | rfl | rfl | rfl <;>
      simp [CollectorFacts, HostMetricsConfig.gauge, metricCatalog, List.lookup]

theorem swap_metrics_facts (cfg : HostMetricsConfig) (clock : Clock)
    (r : Except Unit SwapStats) (m : Metric)
    (h : m ∈ cfg.swap_metrics clock r) : CollectorFacts cfg m := by
  cases r with
  | error e => simp [HostMetricsConfig.swap_metrics] at h
  | ok s =>
    simp only [HostMetricsConfig.swap_metrics, List.mem_cons,
      List.not_mem_nil, or_false] at h
    rcases h with rfl | rfl | rfl | rfl | rfl <;>
      simp [CollectorFacts, HostMetricsConfig.gauge, HostMetricsConfig.counter,
        metricCatalog, List.lookup]

theorem loadavg_metrics_facts (cfg : HostMetricsConfig) (clock : Clock)
    (r : Except Unit LoadAvg) (m : Metric)
    (h : m ∈ cfg.loadavg_metrics clock r) : CollectorFacts cfg m := by
  cases r with
  | error e => simp [HostMetricsConfig.loadavg_metrics] at h
  | ok l =>
    simp only [HostMetricsConfig.loadavg_metrics, List.mem_cons,
      List.not_mem_nil, or_false] at h
    rcases h with rfl | rfl | rfl <;>
      simp [CollectorFacts, HostMetricsConfig.gauge, metricCatalog, List.lookup]

theorem host_metrics_facts (cfg : HostMetricsConfig) (clock : Clock)
    (u b : Except Unit Val) (m : Metric)
    (h : m ∈ cfg.host_metrics clock u b) : CollectorFacts cfg m := by
  cases u with
  | ok uv =>
    cases b with
    | ok bv =>
      simp only [HostMetricsConfig.host_metrics, List.mem_cons,
        List.not_mem_nil, or_false] at h
      rcases h with rfl | rfl <;>
        simp [CollectorFacts, HostMetricsConfig.gauge, metricCatalog, List.lookup]
    | error e =>
      simp only [HostMetricsConfig.host_metrics, List.mem_cons,
        List.not_mem_nil, or_false] at h
      subst h
      simp [CollectorFacts, HostMetricsConfig.gauge, metricCatalog, List.lookup]
  | error e =>
    cases b with
    | ok bv =>
      simp only [HostMetricsConfig.host_metrics, List.mem_cons,
        List.not_mem_nil, or_false] at h
      subst h
      simp [CollectorFacts, HostMetricsConfig.gauge, metricCatalog, List.lookup]
    | error e2 => simp [HostMetricsConfig.host_metrics] at h

theorem network_metrics_facts (cfg : HostMetricsConfig) (clock : Clock)
    (r : Except Unit (List (Except Unit NetCounter))) (m : Metric)
    (h : m ∈ cfg.network_metrics clock r) : CollectorFacts cfg m := by
  cases r with
  | error e => simp [HostMetricsConfig.network_metrics] at h
  | ok cs =>
    simp only [HostMetricsConfig.network_metrics, List.mem_flatten,
      List.mem_map] at h
    obtain ⟨l, ⟨p, hp, rfl⟩, hm⟩ := h
    simp only [List.mem_cons, List.not_mem_nil, or_false] at hm
    rcases hm with rfl | rfl | rfl | rfl | rfl | rfl | rfl <;>
      simp [CollectorFacts, HostMetricsConfig.counter, metricCatalog, List.lookup]

theorem filesystem_metrics_facts (cfg : HostMetricsConfig) (clock : Clock)
    (r : Except Unit (List (Except Unit Partition))) (m : Metric)
    (h : m ∈ cfg.filesystem_metrics clock r) : CollectorFacts cfg m := by
  cases r with
  | error e => simp [HostMetricsConfig.filesystem_metrics] at h
  | ok parts =>
    simp only [HostMetricsConfig.filesystem_metrics, List.mem_flatten,
      List.mem_map] at h
    obtain ⟨l, ⟨q, hq, rfl⟩, hm⟩ := h
    simp only [List.mem_cons, List.not_mem_nil, or_false] at hm
    rcases hm with rfl | rfl | rfl | rfl <;> cases hdev : q.2.1.device <;>
      simp [CollectorFacts, HostMetricsConfig.gauge, metricCatalog,
        List.lookup, hdev]

theorem disk_metrics_facts (cfg : HostMetricsConfig) (clock : Clock)
    (r : Except Unit (List (Except Unit DiskCounter))) (m : Metric)
    (h : m ∈ cfg.disk_metrics clock r) : CollectorFacts cfg m := by
  cases r with
  | error e => simp [HostMetricsConfig.disk_metrics] at h
  | ok cs =>
    simp only [HostMetricsConfig.disk_metrics, List.mem_flatten,
      List.mem_map] at h
    obtain ⟨l, ⟨p, hp, rfl⟩, hm⟩ := h
    simp only [List.mem_cons, List.not_mem_nil, or_false] at hm
    rcases hm with rfl | rfl | rfl | rfl <;>
      simp [CollectorFacts, HostMetricsConfig.counter, metricCatalog, List.lookup]

theorem categoryOutput_facts (cfg : HostMetricsConfig) (d : ProviderData)
    (c : Collector) (m : Metric) (h : m ∈ categoryOutput cfg d c) :
    CollectorFacts cfg m := by
  cases c with
  | Cpu => exact cpu_metrics_facts _ _ _ _ h
  | Disk => exact disk_metrics_facts _ _ _ _ h
  | Filesystem => exact filesystem_metrics_facts _ _ _ _ h
  | Load => exact loadavg_metrics_facts _ _ _ _ h
  | Host => exact host_metrics_facts _ _ _ _ _ h
  | Memory =>
    rcases List.mem_append.mp h with h2 | h2
    · exact memory_metrics_facts _ _ _ _ h2
    · exact swap_metrics_facts _ _ _ _ h2
  | Network => exact network_metrics_facts _ _ _ _ h

theorem mem_if_add {b : Bool} {s : String} {l : List Metric} {m : Metric}
    (h : m ∈ if b = true then add_collector s l else []) :
    b = true ∧ ∃ m0 ∈ l, m = m0.insert_tag "collector" s := by
  cases b
  · simp at h
  · rw [if_pos rfl] at h
    simp only [add_collector, List.mem_map] at h
    obtain ⟨m0, hm0, hh⟩ := h
    exact ⟨rfl, m0, hm0, hh.symm⟩

/-- Provenance through the pre-tagging body of `capture_metrics`: every
metric comes from one enabled category's collector output, with the
`collector` tag added. -/
theorem mem_captureCore (cfg : HostMetricsConfig) (d : ProviderData)
    (m : Metric) (h : m ∈ cfg.captureCore d) :
    ∃ c m0, cfg.has_collector c = true ∧ m0 ∈ categoryOutput cfg d c ∧
      m = m0.insert_tag "collector" (collectorTagName c) := by
  simp only [HostMetricsConfig.captureCore, List.mem_append] at h
  rcases h with ((((((h | h) | h) | h) | h) | h) | h)
  · obtain ⟨hc, m0, hm0, rfl⟩ := mem_if_add h
    exact ⟨.Cpu, m0, hc, hm0, rfl⟩
  · obtain ⟨hc, m0, hm0, rfl⟩ := mem_if_add h
    exact ⟨.Disk, m0, hc, hm0, rfl⟩
  · obtain ⟨hc, m0, hm0, rfl⟩ := mem_if_add h
    exact ⟨.Filesystem, m0, hc, hm0, rfl⟩
  · obtain ⟨hc, m0, hm0, rfl⟩ := mem_if_add h
    exact ⟨.Load, m0, hc, hm0, rfl⟩
  · obtain ⟨hc, m0, hm0, rfl⟩ := mem_if_add h
    exact ⟨.Host, m0, hc, hm0, rfl⟩
  · cases hc : cfg.has_collector Collector.Memory with
    | false =>
      rw [hc] at h
      simp at h
    | true =>
      rw [hc, if_pos rfl] at h
      rcases List.mem_append.mp h with h2 | h2
      · simp only [add_collector, List.mem_map] at h2
        obtain ⟨m0, hm0, rfl⟩ := h2
        exact ⟨.Memory, m0, hc, List.mem_append_left _ hm0, rfl⟩
      · simp only [add_collector, List.mem_map] at h2
        obtain ⟨m0, hm0, rfl⟩ := h2
        exact ⟨.Memory, m0, hc, List.mem_append_right _ hm0, rfl⟩
  · obtain ⟨hc, m0, hm0, rfl⟩ := mem_if_add h
    exact ⟨.Network, m0, hc, hm0, rfl⟩

/-- Provenance through `capture_metrics`: every metric comes from one enabled
category, tagged with its collector name, and with the `host` tag when
hostname resolution succeeded. -/
theorem mem_capture_metrics (cfg : HostMetricsConfig) (d : ProviderData)
    (m : Metric) (h : m ∈ cfg.capture_metrics d) :
    ∃ c m0, cfg.has_collector c = true ∧ m0 ∈ categoryOutput cfg d c ∧
      ((∃ hn, d.hostname = .ok hn ∧
          m = (m0.insert_tag "collector" (collectorTagName c)).insert_tag "host" hn) ∨
        (d.hostname = .error () ∧
          m = m0.insert_tag "collector" (collectorTagName c))) := by
  unfold HostMetricsConfig.capture_metrics at h
  cases hh : d.hostname with
  | ok hn =>
    rw [hh] at h
    simp only [List.mem_map] at h
    obtain ⟨m1, hm1, rfl⟩ := h
    obtain ⟨c, m0, hc, hm0, rfl⟩ := mem_captureCore cfg d m1 hm1
    exact ⟨c, m0, hc, hm0, .inl ⟨hn, rfl, rfl⟩⟩
  | error e =>
    cases e
    rw [hh] at h
    obtain ⟨c, m0, hc, hm0, rfl⟩ := mem_captureCore cfg d m h
    exact ⟨c, m0, hc, hm0, .inr ⟨rfl, rfl⟩⟩

/-- A minimal configuration for concrete evaluations: all categories enabled,
default namespace, no filters. -/
def testConfig : HostMetricsConfig :=
  { scrape_interval_secs := default_scrape_interval,
    collectors := none,
    ns := Namespace.default,
    disk := ⟨FilterList.default⟩,
    filesystem := ⟨FilterList.default, FilterList.default, FilterList.default⟩,
    network := ⟨FilterList.default⟩ }

/-- A clock whose reading is its call index, making distinct `Utc::now()`
calls observable. -/
def idClock : Clock := fun i => i

/-- A constant clock. -/
def zeroClock : Clock := fun _ => 0

/-- Concrete provider data for witness evaluations. -/
def testData : ProviderData :=
  { hostname := .ok "testhost",
    cpuClock := zeroClock, diskClock := zeroClock, fsClock := zeroClock,
    loadClock := zeroClock, hostClock := zeroClock, memClock := zeroClock,
    swapClock := zeroClock, netClock := zeroClock,
    cpu := .ok [.ok ⟨1, 2, 3, 4⟩],
    disk := .ok [],
    partitions := .ok [],
    load := .ok ⟨1, 2, 3⟩,
    uptime := .ok 100,
    boot_time := .ok 200,
    memory := .ok ⟨8, 7, 6, 5, 4, 3, 2, 1⟩,
    swap := .ok ⟨1, 2, 3, some 4, some 5⟩,
    network := .ok [] }

/-- Claim C3 counterexample: one `host_metrics` invocation (uptime and boot
time both available, clock returning its call index) yields two metrics with
two different timestamps: the code reads `Utc::now()` once per sub-query of
the invocation, not once at invocation start. -/
theorem claim_C3_counterexample :
    ¬ (∀ m1 ∈ testConfig.host_metrics idClock (.ok 100) (.ok 200),
        ∀ m2 ∈ testConfig.host_metrics idClock (.ok 100) (.ok 200),
          m1.timestamp = m2.timestamp) := by
  decide

/-- Claim C3 as amended: `memory_metrics`, `swap_metrics` and
`loadavg_metrics` stamp all metrics of one invocation with the invocation's
single first clock reading; `cpu_metrics`, `disk_metrics`, `network_metrics`
and `filesystem_metrics` instead take a fresh reading per processed entry —
the i-th passing entry's metrics are exactly its entry metrics stamped with
the i-th reading, and all metrics of one entry share that reading (for cpu,
the entry's index is also its `cpu` tag); and `host_metrics` takes a separate
reading for each of its two sub-queries, in order. -/
theorem claim_C3_amended_timestamps :
    ∀ (cfg : HostMetricsConfig) (clock : Clock),
      (∀ r, ∀ m ∈ cfg.memory_metrics clock r, m.timestamp = clock 0) ∧
      (∀ r, ∀ m ∈ cfg.swap_metrics clock r, m.timestamp = clock 0) ∧
      (∀ r, ∀ m ∈ cfg.loadavg_metrics clock r, m.timestamp = clock 0) ∧
      (∀ ts, cfg.cpu_metrics clock (.ok ts) =
        (((ts.filterMap filter_result).enum).map
          (fun p => cpuEntryMetrics cfg (clock p.1) p.1 p.2)).flatten) ∧
      (∀ (timestamp : Time) (index : Nat) t,
        ∀ m ∈ cpuEntryMetrics cfg timestamp index t,
          m.timestamp = timestamp ∧
            List.lookup "cpu" m.tags = some (toString index)) ∧
      (∀ cs, cfg.disk_metrics clock (.ok cs) =
        ((((cs.filterMap filter_result).filter
            (fun c => cfg.disk.devices.contains_path (some c.device_name))).enum).map
          (fun p => diskEntryMetrics cfg (clock p.1) p.2)).flatten) ∧
      (∀ (timestamp : Time) c, ∀ m ∈ diskEntryMetrics cfg timestamp c,
        m.timestamp = timestamp) ∧
      (∀ cs, cfg.network_metrics clock (.ok cs) =
        ((((cs.filterMap filter_result).filter
            (fun c => cfg.network.devices.contains_str (some c.interface))).enum).map
          (fun p => networkEntryMetrics cfg (clock p.1) p.2)).flatten) ∧
      (∀ (timestamp : Time) c, ∀ m ∈ networkEntryMetrics cfg timestamp c,
        m.timestamp = timestamp) ∧
      (∀ parts, cfg.filesystem_metrics clock (.ok parts) =
        (((((((parts.filterMap filter_result).filter
              (fun p => cfg.filesystem.mountpoints.contains_path
                (some p.mount_point))).filter
              (fun p => cfg.filesystem.devices.contains_path p.device)).filter
              (fun p => cfg.filesystem.filesystems.contains_str
                (some p.file_system))).filterMap
            (fun p =>
              match p.usage with
              | .ok u => some (p, u)
              | .error _ => none)).enum).map
          (fun q => filesystemEntryMetrics cfg (clock q.1) q.2.1 q.2.2)).flatten) ∧
      (∀ (timestamp : Time) p u, ∀ m ∈ filesystemEntryMetrics cfg timestamp p u,
        m.timestamp = timestamp) ∧
      (∀ u b, cfg.host_metrics clock (.ok u) (.ok b) =
        [cfg.gauge "uptime" (clock 0) u [], cfg.gauge "boot_time" (clock 1) b []]) ∧
      (∀ u, cfg.host_metrics clock (.ok u) (.error ()) =
        [cfg.gauge "uptime" (clock 0) u []]) ∧
      (∀ b, cfg.host_metrics clock (.error ()) (.ok b) =
        [cfg.gauge "boot_time" (clock 0) b []]) := by
  intro cfg clock
  refine ⟨fun r m hm => ?_, fun r m hm => ?_, fun r m hm => ?_,
    fun ts => rfl, fun timestamp index t m hm => ?_,
    fun cs => rfl, fun timestamp c m hm => ?_,
    fun cs => rfl, fun timestamp c m hm => ?_,
    fun parts => rfl, fun timestamp p u m hm => ?_,
    fun u b => rfl, fun u => rfl, fun b => rfl⟩
  · cases r with
    | error e => simp [HostMetricsConfig.memory_metrics] at hm
    | ok s =>
      simp only [HostMetricsConfig.memory_metrics, List.mem_cons,
        List.not_mem_nil, or_false] at hm
      rcases hm with rfl | rfl | rfl | rfl | rfl | rfl | rfl | rfl <;> rfl
  · cases r with
    | error e => simp [HostMetricsConfig.swap_metrics] at hm
    | ok s =>
      simp only [HostMetricsConfig.swap_metrics, List.mem_cons,
        List.not_mem_nil, or_false] at hm
      rcases hm with rfl | rfl | rfl | rfl | rfl <;> rfl
  · cases r with
    | error e => simp [HostMetricsConfig.loadavg_metrics] at hm
    | ok l =>
      simp only [HostMetricsConfig.loadavg_metrics, List.mem_cons,
        List.not_mem_nil, or_false] at hm
      rcases hm with rfl | rfl | rfl <;> rfl
  · simp only [cpuEntryMetrics, List.mem_cons, List.not_mem_nil, or_false] at hm
    rcases hm with rfl | rfl | rfl | rfl <;>
      exact ⟨rfl, by simp [HostMetricsConfig.counter, List.lookup]⟩
  · simp only [diskEntryMetrics, List.mem_cons, List.not_mem_nil, or_false] at hm
    rcases hm with rfl | rfl | rfl | rfl <;> rfl
  · simp only [networkEntryMetrics, List.mem_cons, List.not_mem_nil,
      or_false] at hm
    rcases hm with rfl | rfl | rfl | rfl | rfl | rfl | rfl <;> rfl
  · simp only [filesystemEntryMetrics, List.mem_cons, List.not_mem_nil,
      or_false] at hm
    rcases hm with rfl | rfl | rfl | rfl <;> rfl

/-- A concrete metric of `memory_metrics` for the C3 amended witness. -/
def wC3Metric : Metric :=
  { name := "memory_total_bytes", kind := .gauge, value := 8, tags := [],
    ns := some "host", timestamp := 42 }

/-- Witness for the amended claim C3 at a concrete invocation. -/
theorem claim_C3_amended_witness : wC3Metric.timestamp = 42 :=
  (claim_C3_amended_timestamps testConfig (fun _ => 42)).1
    (.ok ⟨8, 7, 6, 5, 4, 3, 2, 1⟩) wC3Metric (by decide)

/-- Claim C6: a provider-level failure yields an empty result for that
category, and a capture cycle treats a failed category exactly like one with
no samples, leaving all other categories untouched. -/
theorem claim_C6_provider_failure_isolated :
    ∀ (cfg : HostMetricsConfig) (d : ProviderData) (clock : Clock),
      cfg.cpu_metrics clock (.error ()) = [] ∧
      cfg.disk_metrics clock (.error ()) = [] ∧
      cfg.filesystem_metrics clock (.error ()) = [] ∧
      cfg.loadavg_metrics clock (.error ()) = [] ∧
      cfg.host_metrics clock (.error ()) (.error ()) = [] ∧
      cfg.memory_metrics clock (.error ()) = [] ∧
      cfg.swap_metrics clock (.error ()) = [] ∧
      cfg.network_metrics clock (.error ()) = [] ∧
      cfg.capture_metrics { d with cpu := .error () } =
        cfg.capture_metrics { d with cpu := .ok [] } ∧
      cfg.capture_metrics { d with network := .error () } =
        cfg.capture_metrics { d with network := .ok [] } := by
  intro cfg d clock
  exact ⟨rfl, rfl, rfl, rfl, rfl, rfl, rfl, rfl, rfl, rfl⟩

/-- Claim C7: a malformed sample in a streamed provider result set is dropped
alone: the collector output equals the output on the same set without that
sample, for each of the four streamed collectors. -/
theorem claim_C7_bad_sample_skipped :
    ∀ (cfg : HostMetricsConfig) (clock : Clock) (e : Unit),
      (∀ (xs ys : List (Except Unit CpuTimes)),
        cfg.cpu_metrics clock (.ok (xs ++ .error e :: ys)) =
          cfg.cpu_metrics clock (.ok (xs ++ ys))) ∧
      (∀ (xs ys : List (Except Unit DiskCounter)),
        cfg.disk_metrics clock (.ok (xs ++ .error e :: ys)) =
          cfg.disk_metrics clock (.ok (xs ++ ys))) ∧
      (∀ (xs ys : List (Except Unit NetCounter)),
        cfg.network_metrics clock (.ok (xs ++ .error e :: ys)) =
          cfg.network_metrics clock (.ok (xs ++ ys))) ∧
      (∀ (xs ys : List (Except Unit Partition)),
        cfg.filesystem_metrics clock (.ok (xs ++ .error e :: ys)) =
          cfg.filesystem_metrics clock (.ok (xs ++ ys))) := by
  intro cfg clock e
  refine ⟨fun xs ys => ?_, fun xs ys => ?_, fun xs ys => ?_, fun xs ys => ?_⟩
  · simp [HostMetricsConfig.cpu_metrics, List.filterMap_append,
      List.filterMap_cons, filter_result]
  · simp [HostMetricsConfig.disk_metrics, List.filterMap_append,
      List.filterMap_cons, filter_result]
  · simp [HostMetricsConfig.network_metrics, List.filterMap_append,
      List.filterMap_cons, filter_result]
  · simp [HostMetricsConfig.filesystem_metrics, List.filterMap_append,
      List.filterMap_cons, filter_result]

/-- Every captured metric's namespace is the configuration's namespace:
orchestrator tagging never touches it. -/
theorem ns_of_mem_capture (cfg : HostMetricsConfig) (d : ProviderData)
    (m : Metric) (h : m ∈ cfg.capture_metrics d) : m.ns = cfg.ns.val := by
  obtain ⟨c, m0, hc, hm0, hcase⟩ := mem_capture_metrics cfg d m h
  have hns := (categoryOutput_facts cfg d c m0 hm0).1
  rcases hcase with ⟨hn, hhost, rfl⟩ | ⟨hhost, rfl⟩ <;> exact hns

/-- The built configuration's namespace is the configured one with an empty
string cleared. -/
theorem build_ns_val (cfg : HostMetricsConfig) :
    cfg.build.ns.val = cfg.ns.val.filter (fun s => !s.isEmpty) := rfl

/-- Claim C8: after `build`, the default namespace stamps every captured
metric with namespace `host`; a configured non-empty namespace `S` stamps
every captured metric with `S`; an explicitly empty namespace leaves every
captured metric without a namespace. -/
theorem claim_C8_namespace :
    ∀ (cfg : HostMetricsConfig) (d : ProviderData),
      (cfg.ns = Namespace.default →
        ∀ m ∈ cfg.build.capture_metrics d, m.ns = some "host") ∧
      (∀ S, S ≠ "" → cfg.ns = ⟨some S⟩ →
        ∀ m ∈ cfg.build.capture_metrics d, m.ns = some S) ∧
      (cfg.ns = ⟨some ""⟩ →
        ∀ m ∈ cfg.build.capture_metrics d, m.ns = none) := by
  intro cfg d
  refine ⟨fun h m hm => ?_, fun S hS h m hm => ?_, fun h m hm => ?_⟩
  · rw [ns_of_mem_capture _ _ _ hm, build_ns_val, h]
    decide
  · rw [ns_of_mem_capture _ _ _ hm, build_ns_val, h]
    have hE : S.isEmpty = false := by
      cases hE2 : S.isEmpty
      · rfl
      · exact absurd ((String.isEmpty_iff S).mp hE2) hS
    simp [Option.filter, hE]
  · rw [ns_of_mem_capture _ _ _ hm, build_ns_val, h]
    decide

/-- Provider data with failed hostname resolution. -/
def testDataNoHost : ProviderData := { testData with hostname := .error () }

/-- A configuration with namespace `other`. -/
def testConfigOther : HostMetricsConfig :=
  { testConfig with ns := ⟨some "other"⟩ }

/-- The uptime metric of a capture under namespace `other`. -/
def wC8Metric : Metric :=
  { name := "uptime", kind := .gauge, value := 100,
    tags := [("collector", "host"), ("host", "testhost")],
    ns := some "other", timestamp := 0 }

/-- Witness for claim C8 at a concrete configuration and capture. -/
theorem claim_C8_witness : wC8Metric.ns = some "other" :=
  (claim_C8_namespace testConfigOther testData).2.1 "other" (by decide) rfl
    wC8Metric (by decide)

/-- Every captured metric's name and kind are in the fixed catalog. -/
theorem name_kind_of_mem_capture (cfg : HostMetricsConfig) (d : ProviderData)
    (m : Metric) (h : m ∈ cfg.capture_metrics d) :
    (m.name, m.kind) ∈ metricCatalog := by
  obtain ⟨c, m0, hc, hm0, hcase⟩ := mem_capture_metrics cfg d m h
  have hcat := (categoryOutput_facts cfg d c m0 hm0).2.1
  rcases hcase with ⟨hn, hhost, rfl⟩ | ⟨hhost, rfl⟩ <;> exact hcat

/-- The catalog assigns each metric name exactly one kind. -/
theorem metricCatalog_functional :
    ∀ p ∈ metricCatalog, ∀ q ∈ metricCatalog, p.1 = q.1 → p.2 = q.2 := by
  decide

/-- Claim C9: across all collectors, configurations and capture cycles, a
metric name is emitted with exactly one kind: two captured metrics with the
same name have the same kind. -/
theorem claim_C9_kind_fixed_per_name :
    ∀ (cfg1 cfg2 : HostMetricsConfig) (d1 d2 : ProviderData) (m1 m2 : Metric),
      m1 ∈ cfg1.capture_metrics d1 → m2 ∈ cfg2.capture_metrics d2 →
      m1.name = m2.name → m1.kind = m2.kind := by
  intro cfg1 cfg2 d1 d2 m1 m2 h1 h2 hname
  exact metricCatalog_functional _ (name_kind_of_mem_capture _ _ _ h1)
    _ (name_kind_of_mem_capture _ _ _ h2) hname

/-- The uptime metric of a host-tagged capture. -/
def wC9a : Metric :=
  { name := "uptime", kind := .gauge, value := 100,
    tags := [("collector", "host"), ("host", "testhost")],
    ns := some "host", timestamp := 0 }

/-- The uptime metric of a capture whose hostname resolution failed. -/
def wC9b : Metric :=
  { name := "uptime", kind := .gauge, value := 100,
    tags := [("collector", "host")], ns := some "host", timestamp := 0 }

/-- Witness for claim C9 at two concrete captures sharing a metric name. -/
theorem claim_C9_witness : wC9a.kind = wC9b.kind :=
  claim_C9_kind_fixed_per_name testConfig testConfig testData testDataNoHost
    wC9a wC9b (by decide) (by decide) rfl

/-- Claim C4: every captured metric is one metric of its producing (and
enabled) category's collector output, with the `collector` tag set by the
orchestrator to exactly that category's name (the collector outputs
themselves carry no such tag); every captured metric carries a `host` tag
equal to the resolved hostname exactly when resolution succeeded, and a
failed resolution drops no metrics. -/
theorem claim_C4_collector_and_host_tags :
    ∀ (cfg : HostMetricsConfig) (d : ProviderData),
      (∀ m ∈ cfg.capture_metrics d,
        ∃ c, cfg.has_collector c = true ∧
          List.lookup "collector" m.tags = some (collectorTagName c) ∧
          ∃ m0 ∈ categoryOutput cfg d c,
            ((∃ hn, d.hostname = .ok hn ∧
                m = (m0.insert_tag "collector"
                  (collectorTagName c)).insert_tag "host" hn) ∨
              (d.hostname = .error () ∧
                m = m0.insert_tag "collector" (collectorTagName c)))) ∧
      (∀ m ∈ cfg.capture_metrics d, ∀ hn, d.hostname = .ok hn →
        List.lookup "host" m.tags = some hn) ∧
      (∀ m ∈ cfg.capture_metrics d, d.hostname = .error () →
        List.lookup "host" m.tags = none) ∧
      (∀ c, ∀ m0 ∈ categoryOutput cfg d c,
        List.lookup "collector" m0.tags = none) ∧
      (∀ hn, (cfg.capture_metrics { d with hostname := .ok hn }).length =
        (cfg.capture_metrics { d with hostname := .error () }).length) := by
  intro cfg d
  refine ⟨fun m hm => ?_, fun m hm hn2 hok => ?_, fun m hm herr => ?_,
    fun c m0 hm0 => (categoryOutput_facts cfg d c m0 hm0).2.2.1, fun hn => ?_⟩
  · obtain ⟨c, m0, hc, hm0, hcase⟩ := mem_capture_metrics cfg d m hm
    refine ⟨c, hc, ?_, m0, hm0, hcase⟩
    rcases hcase with ⟨hn, hres, rfl⟩ | ⟨hres, rfl⟩
    · simp only [Metric.insert_tag]
      rw [lookup_insertTag_ne _ _ _ _ (by decide)]
      exact lookup_insertTag_self _ _ _
    · simp only [Metric.insert_tag]
      exact lookup_insertTag_self _ _ _
  · obtain ⟨c, m0, hc, hm0, hcase⟩ := mem_capture_metrics cfg d m hm
    rcases hcase with ⟨hn, hres, rfl⟩ | ⟨hres, rfl⟩
    · rw [hres] at hok
      obtain rfl : hn = hn2 := Except.ok.inj hok
      simp only [Metric.insert_tag]
      exact lookup_insertTag_self _ _ _
    · rw [hres] at hok
      exact absurd hok (by simp)
  · obtain ⟨c, m0, hc, hm0, hcase⟩ := mem_capture_metrics cfg d m hm
    rcases hcase with ⟨hn, hres, rfl⟩ | ⟨hres, rfl⟩
    · rw [hres] at herr
      exact absurd herr (by simp)
    · simp only [Metric.insert_tag]
      rw [lookup_insertTag_ne _ _ _ _ (by decide)]
      exact (categoryOutput_facts cfg d c m0 hm0).2.2.2
  · show ((cfg.captureCore d).map (fun m => m.insert_tag "host" hn)).length =
      (cfg.captureCore d).length
    simp

/-- A fully tagged cpu metric of a concrete capture. -/
def wC4Metric : Metric :=
  { name := "cpu_seconds_total", kind := .counter, value := 1,
    tags := [("mode", "idle"), ("cpu", "0"), ("collector", "cpu"),
      ("host", "testhost")],
    ns := some "host", timestamp := 0 }

/-- Witness for claim C4 at a concrete capture: the metric's provenance and
collector tag, with the hypotheses discharged by evaluation. -/
theorem claim_C4_witness :
    ∃ c, testConfig.has_collector c = true ∧
      List.lookup "collector" wC4Metric.tags = some (collectorTagName c) ∧
      ∃ m0 ∈ categoryOutput testConfig testData c,
        ((∃ hn, testData.hostname = .ok hn ∧
            wC4Metric = (m0.insert_tag "collector"
              (collectorTagName c)).insert_tag "host" hn) ∨
          (testData.hostname = .error () ∧
            wC4Metric = m0.insert_tag "collector" (collectorTagName c))) :=
  (claim_C4_collector_and_host_tags testConfig testData).1 wC4Metric (by decide)

/-- Claim C5: without an allow-list all seven categories are enabled; with an
allow-list exactly its members are enabled; and a capture cycle's output
consists of exactly the enabled categories' collector outputs. -/
theorem claim_C5_enabled_categories :
    ∀ (cfg : HostMetricsConfig) (d : ProviderData),
      (cfg.collectors = none → ∀ c, cfg.has_collector c = true) ∧
      (∀ l c, cfg.collectors = some l →
        (cfg.has_collector c = true ↔ c ∈ l)) ∧
      (cfg.capture_metrics d).length =
        ((allCollectors.filter cfg.has_collector).map
          (fun c => (categoryOutput cfg d c).length)).sum := by
  intro cfg d
  refine ⟨fun h c => by simp [HostMetricsConfig.has_collector, h],
    fun l c h => ?_, ?_⟩
  · simp [HostMetricsConfig.has_collector, h, List.any_eq_true]
  · have hlen : (cfg.capture_metrics d).length = (cfg.captureCore d).length := by
      unfold HostMetricsConfig.capture_metrics
      cases hh : d.hostname <;> simp [hh]
    rw [hlen]
    unfold HostMetricsConfig.captureCore allCollectors
    cases h1 : cfg.has_collector Collector.Cpu <;>
    cases h2 : cfg.has_collector Collector.Disk <;>
    cases h3 : cfg.has_collector Collector.Filesystem <;>
    cases h4 : cfg.has_collector Collector.Load <;>
    cases h5 : cfg.has_collector Collector.Host <;>
    cases h6 : cfg.has_collector Collector.Memory <;>
    cases h7 : cfg.has_collector Collector.Network <;>
      (simp [h1, h2, h3, h4, h5, h6, h7, add_collector, categoryOutput,
        List.filter_cons, List.length_append] <;> omega)

/-- A configuration restricted to the Host category. -/
def testConfigHostOnly : HostMetricsConfig :=
  { testConfig with collectors := some [Collector.Host] }

/-- Witness for claim C5 at a concrete allow-list. -/
theorem claim_C5_witness :
    testConfigHostOnly.has_collector Collector.Host = true ↔
      Collector.Host ∈ [Collector.Host] :=
  (claim_C5_enabled_categories testConfigHostOnly testData).2.1
    [Collector.Host] Collector.Host rfl

end HostMetrics
